import Mathlib

/-!
# Verification of the profile-settings editor core (`ProfileSettingsModal`)

Shallow embedding of the form-draft controller implemented in
`src/components/Header.tsx` (the `ProfileSettingsModal` component):
field validation, draft merge on initialization, debounced draft
persistence, avatar-preview resource lifecycle, and modal dismissal.
JavaScript strings are modelled as Lean `String` (one `Char` per UTF-16
unit of interest); the browser's `URL` constructor, `setTimeout`
debouncing, and React effect-cleanup ordering are modelled explicitly,
as documented on each definition.
-/

namespace ProfileSettings

/-- `BIO_MAX` constant from the source (line 136). -/
def BIO_MAX : Nat := 100

/-- Model of JavaScript `String.prototype.trim`: drop leading and
trailing whitespace. Used by the source in `validate`, `handleSave`
and `isValidTwitterUrl`. -/
def jsTrim (s : String) : String :=
  ⟨((s.data.dropWhile Char.isWhitespace).reverse.dropWhile Char.isWhitespace).reverse⟩

/-- Model of JavaScript `s.slice(0, n)`: the first `n` units of `s`. -/
def jsSlice (s : String) (n : Nat) : String :=
  ⟨s.data.take n⟩

/-- The canonical values record `ProfileSettingsValues` (source lines
123-129): `avatarUrl` is `string | null`, the other fields are typed
`string` / `boolean`. -/
structure ProfileSettingsValues where
  avatarUrl : Option String
  name : String
  bio : String
  twitterLink : String
  streamerMode : Bool
  deriving DecidableEq

/-- Scan for the first occurrence of the literal `"://"`, returning the
text before it and the text after it. Helper for the model of the
platform URL parser. -/
def splitSchemeAux : List Char → Option (List Char × List Char)
  | [] => none
  | ':' :: '/' :: '/' :: rest => some ([], rest)
  | c :: rest =>
    match splitSchemeAux rest with
    | none => none
    | some (pre, post) => some (c :: pre, post)

/-- Characters that end the hostname component of a URL. -/
def hostDelim (c : Char) : Bool :=
  c == '/' || c == ':' || c == '?' || c == '#'

/-- Model of the host platform's URL parser (`new URL(value)` followed
by `url.hostname`), restricted to the absolute `scheme://host[/...]`
shapes the validator distinguishes: the hostname is the text between
the first `"://"` and the following `/`, `:`, `?` or `#`; inputs with
no `"://"`, an empty scheme or an empty host fail to parse (`none`,
modelling the thrown `TypeError`). The model does not validate scheme
characters or normalize the host beyond this. -/
def parseHostname (value : String) : Option String :=
  match splitSchemeAux value.data with
  | none => none
  | some (scheme, after) =>
    if scheme.isEmpty then none
    else
      let host := after.takeWhile (fun c => !(hostDelim c))
      if host.isEmpty then none else some ⟨host⟩

/-- `url.hostname.replace(/^www\./, "")` (source line 154): strip one
leading `"www."` when present. -/
def stripWWW (h : String) : String :=
  if h.data.take 4 = "www.".data then ⟨h.data.drop 4⟩ else h

/-- `isValidTwitterUrl` (source lines 150-159): an empty or
whitespace-only value is valid; otherwise the value must parse as a
URL whose hostname, with a leading `"www."` stripped, is `"x.com"` or
`"twitter.com"`; a parse failure yields `false`. -/
def isValidTwitterUrl (value : String) : Bool :=
  if (jsTrim value).isEmpty then true
  else
    match parseHostname value with
    | none => false
    | some hostname =>
      stripWWW hostname == "x.com" || stripWWW hostname == "twitter.com"

/-- The per-field error object built by `validate` (source lines
209-213, 261-268): a field is present exactly when it currently fails. -/
structure ValidationErrors where
  name : Option String
  bio : Option String
  twitterLink : Option String
  deriving DecidableEq

/-- `validate` (source lines 261-268): name fails iff its trim is
empty, bio fails iff its length exceeds `BIO_MAX`, the link fails iff
`isValidTwitterUrl` rejects it; each failure carries the source's
message string. -/
def validate (s : ProfileSettingsValues) : ValidationErrors :=
  { name := if (jsTrim s.name).isEmpty then some "Name cannot be empty." else none
    bio := if BIO_MAX < s.bio.length then some "Bio must be 100 characters or fewer." else none
    twitterLink := if isValidTwitterUrl s.twitterLink then none
      else some "Enter a valid X/Twitter URL." }

/-- `Object.keys(next).length === 0` is false (source line 267): at
least one field failed. -/
def hasErrors (e : ValidationErrors) : Bool :=
  e.name.isSome || e.bio.isSome || e.twitterLink.isSome

/-- Observable outcome of one `handleSave` call: the errors committed
via `setErrors`, the payload passed to `writeDraft` (if any), and how
many times `toast.success` and `onClose` ran. -/
structure SaveResult where
  errors : ValidationErrors
  persisted : Option ProfileSettingsValues
  toasts : Nat
  closes : Nat
  deriving DecidableEq

/-- `handleSave` (source lines 280-300): run `validate`; on failure
return with no further effect; on success build the payload (trimmed
name and link, bio cut to `BIO_MAX`, avatar and toggle as-is), persist
it with `writeDraft`, emit one success toast, and call `onClose` once. -/
def handleSave (s : ProfileSettingsValues) : SaveResult :=
  let next := validate s
  if hasErrors next then
    { errors := next, persisted := none, toasts := 0, closes := 0 }
  else
    let payload : ProfileSettingsValues :=
      { avatarUrl := s.avatarUrl
        name := jsTrim s.name
        bio := jsSlice s.bio BIO_MAX
        twitterLink := jsTrim s.twitterLink
        streamerMode := s.streamerMode }
    { errors := next, persisted := some payload, toasts := 1, closes := 1 }

/-- A draft record as typed by the source (`Partial<ProfileSettingsValues>`,
lines 161-171): each of the five fields optionally present. -/
structure PartialValues where
  avatarUrl : Option (Option String) := none
  name : Option String := none
  bio : Option String := none
  twitterLink : Option String := none
  streamerMode : Option Bool := none
  deriving DecidableEq

/-- The `defaults` memo (source lines 182-191): each field of the
host-supplied partial record, falling back to `null` / `""` / `false`. -/
def mkDefaults (initialValues : Option PartialValues) : ProfileSettingsValues :=
  { avatarUrl := (initialValues.bind (·.avatarUrl)).getD none
    name := (initialValues.bind (·.name)).getD ""
    bio := (initialValues.bind (·.bio)).getD ""
    twitterLink := (initialValues.bind (·.twitterLink)).getD ""
    streamerMode := (initialValues.bind (·.streamerMode)).getD false }

/-- The spread `{ ...defaults, ...(draft ?? {}) }` (source line 196) at
the typed level: each draft field present overrides the default. -/
def mergeDraft (defaults : ProfileSettingsValues) (draft : Option PartialValues) :
    ProfileSettingsValues :=
  match draft with
  | none => defaults
  | some d =>
    { avatarUrl := d.avatarUrl.getD defaults.avatarUrl
      name := d.name.getD defaults.name
      bio := d.bio.getD defaults.bio
      twitterLink := d.twitterLink.getD defaults.twitterLink
      streamerMode := d.streamerMode.getD defaults.streamerMode }

/-- The `initial` memo (source lines 195-201) at the typed level: merge
the draft over the defaults, then cut the bio to `BIO_MAX` when it is
longer (the `typeof merged.bio === "string"` guard is always satisfied
here; the untyped level is `jsInitial` below). -/
def initialState (defaults : ProfileSettingsValues) (draft : Option PartialValues) :
    ProfileSettingsValues :=
  let merged := mergeDraft defaults draft
  if BIO_MAX < merged.bio.length then { merged with bio := jsSlice merged.bio BIO_MAX }
  else merged

/-- A JSON value as produced by `JSON.parse` for a single field:
string, number, boolean or null. -/
inductive JsonVal where
  | str (s : String)
  | num (n : Int)
  | bool (b : Bool)
  | null
  deriving DecidableEq

/-- A stored draft at the JSON level: `JSON.parse` applies no schema,
so each of the five known keys, when present, holds an arbitrary JSON
value. -/
structure JsDraft where
  avatarUrl : Option JsonVal := none
  name : Option JsonVal := none
  bio : Option JsonVal := none
  twitterLink : Option JsonVal := none
  streamerMode : Option JsonVal := none
  deriving DecidableEq

/-- Outcome of `JSON.parse` on the stored text: a non-null object
(with the field map restricted to the five known keys), or anything
else (null, a primitive). -/
inductive ParsedJson where
  | obj (d : JsDraft)
  | nonObj
  deriving DecidableEq

/-- `readDraft` (source lines 161-171): `none` models an absent key or
a `JSON.parse` exception; a parse result that is falsy or not of
`typeof "object"` yields `null`; otherwise the parsed object is
returned as-is — no field-type validation is performed. -/
def readDraft : Option ParsedJson → Option JsDraft
  | none => none
  | some ParsedJson.nonObj => none
  | some (ParsedJson.obj d) => some d

/-- The five state fields as JavaScript values (untyped level), for
tracing what a draft with mistyped fields does to `initial`. -/
structure JsValues where
  avatarUrl : JsonVal
  name : JsonVal
  bio : JsonVal
  twitterLink : JsonVal
  streamerMode : JsonVal
  deriving DecidableEq

/-- The well-typed defaults record viewed as JavaScript values. -/
def jsOfValues (v : ProfileSettingsValues) : JsValues :=
  { avatarUrl := match v.avatarUrl with | some s => JsonVal.str s | none => JsonVal.null
    name := JsonVal.str v.name
    bio := JsonVal.str v.bio
    twitterLink := JsonVal.str v.twitterLink
    streamerMode := JsonVal.bool v.streamerMode }

/-- The spread `{ ...defaults, ...(draft ?? {}) }` (source line 196) at
the JSON level. -/
def jsMerge (defaults : JsValues) (draft : Option JsDraft) : JsValues :=
  match draft with
  | none => defaults
  | some d =>
    { avatarUrl := d.avatarUrl.getD defaults.avatarUrl
      name := d.name.getD defaults.name
      bio := d.bio.getD defaults.bio
      twitterLink := d.twitterLink.getD defaults.twitterLink
      streamerMode := d.streamerMode.getD defaults.streamerMode }

/-- The `initial` memo (source lines 195-201) at the JSON level: the
bio is cut to `BIO_MAX` only when `typeof merged.bio === "string"` and
it is longer; any non-string bio passes through unchanged. -/
def jsInitial (defaults : JsValues) (draft : Option JsDraft) : JsValues :=
  let merged := jsMerge defaults draft
  match merged.bio with
  | JsonVal.str s =>
    if BIO_MAX < s.length then { merged with bio := JsonVal.str (jsSlice s BIO_MAX) }
    else merged
  | _ => merged

/-- The debounce interval of the persistence effect (source line 256). -/
def DEBOUNCE_MS : Nat := 150

/-- The debounced-persistence effect (source lines 247-259) as trace
semantics. Input: the mutations in order, each a pair of the time it
happened and the full values snapshot right after it (the effect rerun
at a mutation clears the previous `setTimeout` and arms a new one for
`delay` later). Output: the `writeDraft` calls that actually fire, as
(time, snapshot) pairs — a timer armed at `t` fires at `t + delay`
unless the next mutation happens strictly earlier than that. -/
def debounceWrites (delay : Nat) :
    List (Nat × ProfileSettingsValues) → List (Nat × ProfileSettingsValues)
  | [] => []
  | [(t, v)] => [(t + delay, v)]
  | (t, v) :: (t2, v2) :: rest =>
    if t2 < t + delay then debounceWrites delay ((t2, v2) :: rest)
    else (t + delay, v) :: debounceWrites delay ((t2, v2) :: rest)

/-- `avatarPreviewUrl?.startsWith("blob:")` (source lines 243 and 274):
the handle-scheme marker distinguishing session-created object URLs. -/
def isBlob (s : String) : Bool :=
  s.data.take 5 == "blob:".data

/-- State of the avatar-preview lifecycle: the `avatarPreviewUrl` state
value, the value captured by the currently registered cleanup of the
revoke effect (source lines 241-245), the ordered log of
`URL.revokeObjectURL` calls, and whether the component is mounted. -/
structure AvatarState where
  avatar : Option String
  cleanupCaptured : Option String
  releases : List String
  mounted : Bool
  deriving DecidableEq

/-- Mounting with a given initial `avatarPreviewUrl` (source line 203):
the revoke effect runs and its cleanup captures that value. -/
def mountState (init : Option String) : AvatarState :=
  { avatar := init, cleanupCaptured := init, releases := [], mounted := true }

/-- Append a `URL.revokeObjectURL` call for `u` when the
`startsWith("blob:")` guard passes. -/
def revokeIfBlob (log : List String) : Option String → List String
  | none => log
  | some u => if isBlob u then log ++ [u] else log

/-- `handleUploadChange` with a chosen file whose object URL is `url`
(source lines 270-278), followed by the re-render it triggers: the
handler revokes the current value when it is `blob:`-marked and sets
the new URL; the revoke effect then reruns, so its old cleanup fires
(revoking the captured previous value when `blob:`-marked) and its new
cleanup captures `url`. -/
def replaceAvatar (url : String) (st : AvatarState) : AvatarState :=
  if st.mounted then
    { avatar := some url
      cleanupCaptured := some url
      releases := revokeIfBlob (revokeIfBlob st.releases st.avatar) st.cleanupCaptured
      mounted := true }
  else st

/-- Unmount (teardown): React runs the registered cleanup of the
revoke effect once (source lines 241-245); a second teardown has no
cleanup left to run. -/
def unmountAvatar (st : AvatarState) : AvatarState :=
  if st.mounted then
    { st with releases := revokeIfBlob st.releases st.cleanupCaptured, mounted := false }
  else st

/-- One avatar-lifecycle event: an upload replacing the preview with a
freshly created object URL, or the teardown of the editor. -/
inductive AvatarEvent where
  | replace (url : String)
  | unmount
  deriving DecidableEq

/-- Dispatch one avatar-lifecycle event. -/
def avatarStep (st : AvatarState) : AvatarEvent → AvatarState
  | AvatarEvent.replace url => replaceAvatar url st
  | AvatarEvent.unmount => unmountAvatar st

/-- Run a sequence of avatar-lifecycle events from the mounted state. -/
def avatarRun (init : Option String) (evs : List AvatarEvent) : AvatarState :=
  evs.foldl avatarStep (mountState init)

/-- A dismissal-relevant input event while the modal is open: a keydown
seen by the capture-phase window listener (source lines 222-231), or a
mousedown on the backdrop container, inside or outside the modal
surface (source lines 302-305). -/
inductive DismissEvent where
  | key (k : String)
  | pointerDown (insideModal : Bool)
  deriving DecidableEq

/-- How many `onClose` calls one event produces: the keydown handler
calls `onClose` for every `"Escape"`, and `handleBackdropMouseDown`
calls it for every mousedown whose target is outside the modal surface
(with `modalRef` populated, as it is while open). -/
def closeCallsOf : DismissEvent → Nat
  | DismissEvent.key k => if k = "Escape" then 1 else 0
  | DismissEvent.pointerDown inside => if inside then 0 else 1

/-- Total `onClose` calls over a sequence of events while open. -/
def closeCalls (evs : List DismissEvent) : Nat :=
  (evs.map closeCallsOf).sum

/-- An event is a dismissal signal: an escape keydown or an outside
pointer-down. -/
def isDismissSignal : DismissEvent → Bool
  | DismissEvent.key k => k = "Escape"
  | DismissEvent.pointerDown inside => !inside

example : isValidTwitterUrl "" = true := by decide
example : isValidTwitterUrl "   " = true := by decide
example : isValidTwitterUrl "https://example.com/x" = false := by decide
example : isValidTwitterUrl "https://www.x.com/handle" = true := by decide
example : isValidTwitterUrl "https://twitter.com/handle" = true := by decide
example : isValidTwitterUrl "notaurl" = false := by decide
example : isValidTwitterUrl "https://x.com/nova" = true := by decide
example : jsTrim "  ab " = "ab" := by decide
example :
    validate { avatarUrl := none, name := "", bio := "", twitterLink := "", streamerMode := false }
      = { name := some "Name cannot be empty.", bio := none, twitterLink := none } := by decide

/-- The length of a string built from an explicit character list. -/
theorem length_mk_data (l : List Char) : (String.mk l).length = l.length := rfl

/-- `jsSlice` cuts a string to at most `n` units. -/
theorem jsSlice_length (s : String) (n : Nat) : (jsSlice s n).length = min n s.length :=
  List.length_take n s.data

/-- The all-default state of the spec's failing-save scenario:
`{name:"", bio:"", twitterLink:"", streamerMode:false}` with no avatar. -/
def emptyDefaults : ProfileSettingsValues :=
  { avatarUrl := none, name := "", bio := "", twitterLink := "", streamerMode := false }

/-- The valid state of the spec's succeeding-save scenario: name
`"Nova"`, a short bio and the link `https://x.com/nova`. -/
def novaState : ProfileSettingsValues :=
  { avatarUrl := none, name := "Nova", bio := "gm", twitterLink := "https://x.com/nova",
    streamerMode := false }

/-- C1. For every state whose fields pass validation, `handleSave`
persists exactly the finalized snapshot — name and link trimmed, bio
cut to `BIO_MAX` (hence at most 100 units long), avatar and toggle
unchanged — emits exactly one success toast and calls `onClose`
exactly once. -/
theorem save_success_commits (s : ProfileSettingsValues)
    (h : hasErrors (validate s) = false) :
    handleSave s =
      { errors := validate s
        persisted := some
          { avatarUrl := s.avatarUrl
            name := jsTrim s.name
            bio := jsSlice s.bio BIO_MAX
            twitterLink := jsTrim s.twitterLink
            streamerMode := s.streamerMode }
        toasts := 1
        closes := 1 } ∧
    (jsSlice s.bio BIO_MAX).length ≤ BIO_MAX := by
  constructor
  · simp [handleSave, h]
  · rw [jsSlice_length]
    exact Nat.min_le_left _ _

/-- Witness for C1 at the spec's scenario: name `"Nova"`, a short bio
and the link `https://x.com/nova` save successfully with one close. -/
theorem save_success_commits_witness :
    handleSave novaState =
      { errors := validate novaState
        persisted := some
          { avatarUrl := novaState.avatarUrl
            name := jsTrim novaState.name
            bio := jsSlice novaState.bio BIO_MAX
            twitterLink := jsTrim novaState.twitterLink
            streamerMode := novaState.streamerMode }
        toasts := 1
        closes := 1 } :=
  (save_success_commits novaState (by decide)).1

/-- C2. For every state with at least one invalid field, `handleSave`
commits the recomputed errors — present for exactly the failing
fields — persists nothing, emits no toast and never calls `onClose`;
in particular the all-default state yields only the name error and the
modal stays open. -/
theorem save_failure_no_commit (s : ProfileSettingsValues)
    (h : hasErrors (validate s) = true) :
    handleSave s = { errors := validate s, persisted := none, toasts := 0, closes := 0 } ∧
    ((validate s).name.isSome ↔ (jsTrim s.name).isEmpty = true) ∧
    ((validate s).bio.isSome ↔ BIO_MAX < s.bio.length) ∧
    ((validate s).twitterLink.isSome ↔ isValidTwitterUrl s.twitterLink = false) ∧
    initialState emptyDefaults none = emptyDefaults ∧
    validate emptyDefaults
      = { name := some "Name cannot be empty.", bio := none, twitterLink := none } ∧
    handleSave emptyDefaults
      = { errors := { name := some "Name cannot be empty.", bio := none, twitterLink := none },
          persisted := none, toasts := 0, closes := 0 } := by
  refine ⟨by simp [handleSave, h], ?_, ?_, ?_, by decide, by decide, by decide⟩
  · by_cases hn : (jsTrim s.name).isEmpty <;> simp [validate, hn]
  · by_cases hb : BIO_MAX < s.bio.length <;> simp [validate, hb]
  · by_cases ht : isValidTwitterUrl s.twitterLink <;> simp [validate, ht]

/-- Witness for C2 at the all-default state. -/
theorem save_failure_no_commit_witness :
    handleSave emptyDefaults
      = { errors := validate emptyDefaults, persisted := none, toasts := 0, closes := 0 } :=
  (save_failure_no_commit emptyDefaults (by decide)).1

/-- C3. For every supplied defaults record and every stored draft, the
initial state is the defaults overridden field-by-field by the draft
fields that are present; when the merged bio is within `BIO_MAX` the
state is exactly the merge, and when it is longer the initial bio is
its cut to exactly `BIO_MAX` units, before first render. -/
theorem initial_merges_draft_and_truncates
    (defaults : ProfileSettingsValues) (draft : Option PartialValues) :
    (initialState defaults draft).avatarUrl
      = (draft.bind (·.avatarUrl)).getD defaults.avatarUrl ∧
    (initialState defaults draft).name = (draft.bind (·.name)).getD defaults.name ∧
    (initialState defaults draft).twitterLink
      = (draft.bind (·.twitterLink)).getD defaults.twitterLink ∧
    (initialState defaults draft).streamerMode
      = (draft.bind (·.streamerMode)).getD defaults.streamerMode ∧
    ((mergeDraft defaults draft).bio.length ≤ BIO_MAX →
      initialState defaults draft = mergeDraft defaults draft) ∧
    (BIO_MAX < (mergeDraft defaults draft).bio.length →
      (initialState defaults draft).bio = jsSlice (mergeDraft defaults draft).bio BIO_MAX ∧
      (initialState defaults draft).bio.length = BIO_MAX) ∧
    (mergeDraft defaults draft).bio = (draft.bind (·.bio)).getD defaults.bio := by
  have hav : (mergeDraft defaults draft).avatarUrl
      = (draft.bind (·.avatarUrl)).getD defaults.avatarUrl := by
    cases draft <;> simp [mergeDraft]
  have hna : (mergeDraft defaults draft).name = (draft.bind (·.name)).getD defaults.name := by
    cases draft <;> simp [mergeDraft]
  have htw : (mergeDraft defaults draft).twitterLink
      = (draft.bind (·.twitterLink)).getD defaults.twitterLink := by
    cases draft <;> simp [mergeDraft]
  have hst : (mergeDraft defaults draft).streamerMode
      = (draft.bind (·.streamerMode)).getD defaults.streamerMode := by
    cases draft <;> simp [mergeDraft]
  have hbi : (mergeDraft defaults draft).bio = (draft.bind (·.bio)).getD defaults.bio := by
    cases draft <;> simp [mergeDraft]
  by_cases hlen : BIO_MAX < (mergeDraft defaults draft).bio.length
  · have hinit : initialState defaults draft =
        { mergeDraft defaults draft with
          bio := jsSlice (mergeDraft defaults draft).bio BIO_MAX } := by
      simp [initialState, hlen]
    refine ⟨?_, ?_, ?_, ?_, ?_, ?_, hbi⟩
    · rw [hinit]; exact hav
    · rw [hinit]; exact hna
    · rw [hinit]; exact htw
    · rw [hinit]; exact hst
    · intro hle; omega
    · intro _
      rw [hinit]
      exact ⟨rfl, by simp [jsSlice_length, Nat.min_eq_left (Nat.le_of_lt hlen)]⟩
  · have hinit : initialState defaults draft = mergeDraft defaults draft := by
      simp [initialState, hlen]
    refine ⟨?_, ?_, ?_, ?_, ?_, ?_, hbi⟩
    · rw [hinit]; exact hav
    · rw [hinit]; exact hna
    · rw [hinit]; exact htw
    · rw [hinit]; exact hst
    · intro _; exact hinit
    · intro hgt; omega

/-- Witness for C3: a draft whose bio has 105 units over empty defaults
initializes with the 100-unit cut. -/
theorem initial_merges_draft_and_truncates_witness :
    (initialState emptyDefaults
        (some { bio := some (String.mk (List.replicate 105 'a')) })).bio
      = jsSlice (mergeDraft emptyDefaults
          (some { bio := some (String.mk (List.replicate 105 'a')) })).bio BIO_MAX ∧
    (initialState emptyDefaults
        (some { bio := some (String.mk (List.replicate 105 'a')) })).bio.length = BIO_MAX :=
  (initial_merges_draft_and_truncates emptyDefaults
      (some { bio := some (String.mk (List.replicate 105 'a')) })).2.2.2.2.2.1 (by decide)

/-- C4. `isValidTwitterUrl` accepts every value whose trim is empty; a
value with a non-empty trim is accepted iff it parses to a hostname
that equals `"x.com"` or `"twitter.com"` after one leading `"www."` is
stripped; every parse failure is rejected; and the five concrete
examples behave as the spec states. -/
theorem social_link_allowlist :
    (∀ v : String, (jsTrim v).isEmpty = true → isValidTwitterUrl v = true) ∧
    (∀ v : String, (jsTrim v).isEmpty = false →
      (isValidTwitterUrl v = true ↔
        ∃ h, parseHostname v = some h ∧
          (stripWWW h = "x.com" ∨ stripWWW h = "twitter.com"))) ∧
    (∀ v : String, (jsTrim v).isEmpty = false → parseHostname v = none →
      isValidTwitterUrl v = false) ∧
    isValidTwitterUrl "" = true ∧
    isValidTwitterUrl "   " = true ∧
    isValidTwitterUrl "https://example.com/x" = false ∧
    isValidTwitterUrl "https://www.x.com/handle" = true ∧
    isValidTwitterUrl "https://twitter.com/handle" = true := by
  refine ⟨?_, ?_, ?_, by decide, by decide, by decide, by decide, by decide⟩
  · intro v hv
    simp [isValidTwitterUrl, hv]
  · intro v hv
    cases hp : parseHostname v <;>
      simp [isValidTwitterUrl, hv, hp, Bool.or_eq_true, beq_iff_eq]
  · intro v hv hp
    simp [isValidTwitterUrl, hv, hp]

/-- Witness for C4: a schemeless value fails to parse and is rejected. -/
theorem social_link_allowlist_witness : isValidTwitterUrl "notaurl" = false :=
  social_link_allowlist.2.2.1 "notaurl" (by decide) (by decide)

/-- A 101-unit bio, over the validator's limit by one. -/
def bio101 : String := String.mk (List.replicate 101 'a')

/-- A state whose only invalid field is its 101-unit bio. -/
def longBioState : ProfileSettingsValues :=
  { avatarUrl := none, name := "x", bio := bio101, twitterLink := "", streamerMode := false }

/-- A state whose only invalid field is a link on a non-allow-listed
host. -/
def badLinkState : ProfileSettingsValues :=
  { avatarUrl := none, name := "x", bio := "", twitterLink := "https://example.com/x",
    streamerMode := false }

/-- C9 counterexample. The validator's messages are not the ones the
claim states: an over-long bio is flagged with
`"Bio must be 100 characters or fewer."`, not
`"Bio must be ≤100 characters."`, and a bad link is flagged with
`"Enter a valid X/Twitter URL."`, not `"Enter a valid link."`. -/
theorem validator_message_mismatch_found :
    (validate longBioState).bio = some "Bio must be 100 characters or fewer." ∧
    (validate longBioState).bio ≠ some "Bio must be ≤100 characters." ∧
    (validate badLinkState).twitterLink = some "Enter a valid X/Twitter URL." ∧
    (validate badLinkState).twitterLink ≠ some "Enter a valid link." := by
  refine ⟨by decide, by decide, by decide, by decide⟩

/-- C9 amended. The bio check fails iff the length exceeds 100, and
every bio failure carries exactly
`"Bio must be 100 characters or fewer."`; every link failure carries
exactly `"Enter a valid X/Twitter URL."`. -/
theorem validator_messages (s : ProfileSettingsValues) :
    ((validate s).bio.isSome ↔ BIO_MAX < s.bio.length) ∧
    ((validate s).bio = none ∨
      (validate s).bio = some "Bio must be 100 characters or fewer.") ∧
    ((validate s).twitterLink.isSome ↔ isValidTwitterUrl s.twitterLink = false) ∧
    ((validate s).twitterLink = none ∨
      (validate s).twitterLink = some "Enter a valid X/Twitter URL.") := by
  refine ⟨?_, ?_, ?_, ?_⟩
  · by_cases hb : BIO_MAX < s.bio.length <;> simp [validate, hb]
  · by_cases hb : BIO_MAX < s.bio.length <;> simp [validate, hb]
  · by_cases ht : isValidTwitterUrl s.twitterLink <;> simp [validate, ht]
  · by_cases ht : isValidTwitterUrl s.twitterLink <;> simp [validate, ht]

/-- C10. A stored draft that deserializes to an object is returned by
`readDraft` with no field-type validation, and a non-string bio in it
is merged into the initial state unchanged: the load-time cut applies
only to string bios. -/
theorem nonstring_bio_merged_unchanged (defaults : JsValues) (d : JsDraft) (b : JsonVal)
    (hb : d.bio = some b) (hns : ∀ s, b ≠ JsonVal.str s) :
    readDraft (some (ParsedJson.obj d)) = some d ∧
    (jsInitial defaults (readDraft (some (ParsedJson.obj d)))).bio = b := by
  refine ⟨rfl, ?_⟩
  cases b with
  | str s => exact absurd rfl (hns s)
  | num n => simp [jsInitial, jsMerge, readDraft, hb]
  | bool bb => simp [jsInitial, jsMerge, readDraft, hb]
  | null => simp [jsInitial, jsMerge, readDraft, hb]

/-- Witness for C10: a draft whose bio field holds the number `5`
initializes the bio to that number unchanged. -/
theorem nonstring_bio_merged_unchanged_witness :
    (jsInitial (jsOfValues emptyDefaults)
        (readDraft (some (ParsedJson.obj { bio := some (JsonVal.num 5) })))).bio
      = JsonVal.num 5 :=
  (nonstring_bio_merged_unchanged (jsOfValues emptyDefaults) { bio := some (JsonVal.num 5) }
    (JsonVal.num 5) rfl (fun _ h => JsonVal.noConfusion h)).2

/-- C5. For every non-empty burst of mutations in which each mutation
follows the previous one after strictly less than the debounce
interval, exactly one draft write fires; it fires one interval after
the last mutation and carries the snapshot of that last mutation —
no mid-burst write and no earlier snapshot is ever persisted. -/
theorem debounce_single_write (edits : List (Nat × ProfileSettingsValues))
    (hne : edits ≠ [])
    (hburst : edits.Chain' (fun a b => b.1 < a.1 + DEBOUNCE_MS)) :
    debounceWrites DEBOUNCE_MS edits =
      [((edits.getLast hne).1 + DEBOUNCE_MS, (edits.getLast hne).2)] := by
  induction edits with
  | nil => exact absurd rfl hne
  | cons x xs ih =>
    cases xs with
    | nil =>
      obtain ⟨t, v⟩ := x
      simp [debounceWrites]
    | cons y ys =>
      obtain ⟨t, v⟩ := x
      obtain ⟨t2, v2⟩ := y
      have h1 : t2 < t + DEBOUNCE_MS := (List.chain'_cons.mp hburst).1
      have h2 : List.Chain' (fun a b => b.1 < a.1 + DEBOUNCE_MS) ((t2, v2) :: ys) :=
        (List.chain'_cons.mp hburst).2
      have hrec := ih (List.cons_ne_nil _ _) h2
      rw [List.getLast_cons (List.cons_ne_nil _ _)]
      rw [show debounceWrites DEBOUNCE_MS ((t, v) :: (t2, v2) :: ys)
            = debounceWrites DEBOUNCE_MS ((t2, v2) :: ys) by
        simp [debounceWrites, h1]]
      exact hrec

/-- Witness for C5: a three-edit burst at 0, 100 and 200 ms produces
the single write at 350 ms with the third snapshot. -/
theorem debounce_single_write_witness :
    debounceWrites DEBOUNCE_MS
        [(0, emptyDefaults), (100, novaState), (200, longBioState)]
      = [(200 + DEBOUNCE_MS, longBioState)] :=
  debounce_single_write [(0, emptyDefaults), (100, novaState), (200, longBioState)]
    (by decide) (by norm_num [List.chain'_cons, List.chain'_singleton, DEBOUNCE_MS])

/-- C6 counterexample. After two `replace` calls from a blob-free
start, the first session-created handle has received two release
calls — one from the upload handler, one from the revoke effect's
cleanup on the state change — not the exactly one the claim states. -/
theorem replace_double_release_found :
    (avatarRun none [AvatarEvent.replace "blob:1", AvatarEvent.replace "blob:2"]).releases
      = ["blob:1", "blob:1"] ∧
    ((avatarRun none [AvatarEvent.replace "blob:1", AvatarEvent.replace "blob:2"]).releases.count
        "blob:1" = 2) ∧
    ¬ ((avatarRun none [AvatarEvent.replace "blob:1", AvatarEvent.replace "blob:2"]).releases.count
        "blob:1" = 1) := by
  refine ⟨by decide, by decide, by decide⟩

/-- C6 amended. Two successive `replace` calls from a blob-free start
leave exactly one live handle, but the first superseded session
handle receives exactly two release calls (upload handler plus revoke
effect cleanup); teardown then releases the final live session handle
exactly once, and a repeated teardown is a no-op. -/
theorem replace_release_counts (h1 h2 : String)
    (hb1 : isBlob h1 = true) (hb2 : isBlob h2 = true) :
    (avatarRun none [AvatarEvent.replace h1, AvatarEvent.replace h2]).avatar = some h2 ∧
    (avatarRun none [AvatarEvent.replace h1, AvatarEvent.replace h2]).releases = [h1, h1] ∧
    (unmountAvatar (avatarRun none [AvatarEvent.replace h1, AvatarEvent.replace h2])).releases
      = [h1, h1, h2] ∧
    unmountAvatar (unmountAvatar (avatarRun none [AvatarEvent.replace h1, AvatarEvent.replace h2]))
      = unmountAvatar (avatarRun none [AvatarEvent.replace h1, AvatarEvent.replace h2]) := by
  refine ⟨?_, ?_, ?_, ?_⟩ <;>
    simp [avatarRun, avatarStep, mountState, replaceAvatar, unmountAvatar, revokeIfBlob, hb1, hb2]

/-- Witness for C6 (amended): concrete run with `"blob:a"`, `"blob:b"`. -/
theorem replace_release_counts_witness :
    (avatarRun none [AvatarEvent.replace "blob:a", AvatarEvent.replace "blob:b"]).releases
      = ["blob:a", "blob:a"] :=
  (replace_release_counts "blob:a" "blob:b" (by decide) (by decide)).2.1

/-- C7 counterexample. A restored initial avatar value whose text
carries the `blob:` marker is released by the core on the first
`replace` (twice, in fact), although it was not created in this
session. -/
theorem restored_blob_released_found :
    (avatarRun (some "blob:restored") [AvatarEvent.replace "blob:new"]).releases
      = ["blob:restored", "blob:restored"] ∧
    "blob:restored" ∈ (avatarRun (some "blob:restored") [AvatarEvent.replace "blob:new"]).releases
      := by
  refine ⟨by decide, by decide⟩

/-- Every string the lifecycle appends to the release log passes the
`blob:` marker test. -/
theorem revokeIfBlob_blob (log : List String) (o : Option String)
    (h : ∀ u ∈ log, isBlob u = true) : ∀ u ∈ revokeIfBlob log o, isBlob u = true := by
  cases o with
  | none => exact h
  | some v =>
    by_cases hv : isBlob v
    · intro u hu
      rw [revokeIfBlob, if_pos hv] at hu
      rcases List.mem_append.mp hu with hl | hr
      · exact h u hl
      · rcases List.mem_singleton.mp hr with rfl
        exact hv
    · intro u hu
      rw [revokeIfBlob, if_neg hv] at hu
      exact h u hu

/-- Folding lifecycle events preserves "every logged release is
`blob:`-marked". -/
theorem avatarFold_blob (evs : List AvatarEvent) :
    ∀ st : AvatarState, (∀ u ∈ st.releases, isBlob u = true) →
      ∀ u ∈ (List.foldl avatarStep st evs).releases, isBlob u = true := by
  induction evs with
  | nil => intro st h; simpa using h
  | cons e es ih =>
    intro st h
    rw [List.foldl_cons]
    apply ih
    cases e with
    | replace url =>
      by_cases hm : st.mounted
      · intro u hu
        rw [avatarStep, replaceAvatar, if_pos hm] at hu
        exact revokeIfBlob_blob _ _ (revokeIfBlob_blob _ _ h) u hu
      · intro u hu
        rw [avatarStep, replaceAvatar, if_neg hm] at hu
        exact h u hu
    | unmount =>
      by_cases hm : st.mounted
      · intro u hu
        rw [avatarStep, unmountAvatar, if_pos hm] at hu
        exact revokeIfBlob_blob _ _ h u hu
      · intro u hu
        rw [avatarStep, unmountAvatar, if_neg hm] at hu
        exact h u hu

/-- C7 amended. The core only ever releases handles whose text carries
the `blob:` handle-scheme marker; hence an initial or restored avatar
value without the marker is never released, over any sequence of
replaces and teardowns — but ownership detection is purely the marker
test, so an initial value carrying the marker is released like a
session handle (see the counterexample). -/
theorem only_blob_marked_released (init : Option String) (evs : List AvatarEvent) :
    (∀ u ∈ (avatarRun init evs).releases, isBlob u = true) ∧
    (∀ v, init = some v → isBlob v = false → v ∉ (avatarRun init evs).releases) := by
  have hall : ∀ u ∈ (avatarRun init evs).releases, isBlob u = true :=
    avatarFold_blob evs (mountState init) (by simp [mountState])
  refine ⟨hall, ?_⟩
  intro v _ hv hmem
  exact absurd (hall v hmem) (by simp [hv])

/-- Witness for C7 (amended): a restored `https:` avatar is never in
the release log of an upload-then-teardown session. -/
theorem only_blob_marked_released_witness :
    "https://cdn.example/pic.png" ∉
      (avatarRun (some "https://cdn.example/pic.png")
        [AvatarEvent.replace "blob:1", AvatarEvent.unmount]).releases :=
  (only_blob_marked_released (some "https://cdn.example/pic.png")
      [AvatarEvent.replace "blob:1", AvatarEvent.unmount]).2
    "https://cdn.example/pic.png" rfl (by decide)

/-- C8 counterexample. Two escape keydowns while the modal is open
produce two `onClose` calls: the component does not ignore repeated
dismissal signals. -/
theorem double_escape_double_close :
    closeCalls [DismissEvent.key "Escape", DismissEvent.key "Escape"] = 2 ∧
    ¬ closeCalls [DismissEvent.key "Escape", DismissEvent.key "Escape"] ≤ 1 := by
  refine ⟨by decide, by decide⟩

/-- C8 amended. While open, every escape keydown and every outside
pointer-down invokes the host close callback exactly once per signal,
and events that are not dismissal signals invoke it zero times — so a
sequence of events produces exactly as many `onClose` calls as it has
dismissal signals; the component itself never deduplicates them. -/
theorem each_dismiss_signal_closes_once (evs : List DismissEvent) :
    closeCalls evs = evs.countP (fun e => isDismissSignal e) ∧
    (∀ e : DismissEvent, closeCallsOf e = if isDismissSignal e then 1 else 0) := by
  have hone : ∀ e : DismissEvent, closeCallsOf e = if isDismissSignal e then 1 else 0 := by
    intro e
    cases e with
    | key k => by_cases hk : k = "Escape" <;> simp [closeCallsOf, isDismissSignal, hk]
    | pointerDown inside => cases inside <;> simp [closeCallsOf, isDismissSignal]
  refine ⟨?_, hone⟩
  induction evs with
  | nil => simp [closeCalls]
  | cons e es ih =>
    rw [closeCalls, List.map_cons, List.sum_cons, List.countP_cons]
    rw [closeCalls] at ih
    rw [ih, hone e]
    by_cases hs : isDismissSignal e <;> simp [hs, Nat.add_comm]

end ProfileSettings
